import Mathlib

/-!
Shallow embedding of the BrewHaven Café backend (`src/main.py`).

The application is a FastAPI service over three Cosmos DB containers
(`products`, `cart`, `orders`).  We model each container as an optional
list of documents (`none` = the container handle was never initialized,
i.e. the app is "running without DB"), and a possible store failure as
`storeFail : Option String` (`some msg` = the first store call inside a
handler's `try` block raises an exception whose string form is `msg`,
which the handler's `except` clause catches).  Cosmos queries return
documents in store order; `List.filter` preserves that order.

`uuid.uuid4()` and `datetime.utcnow()` are modelled by threading the
freshly generated id / timestamp as explicit arguments to the handlers
that use them.
-/

namespace BrewHaven

/-- A product document, as seeded into the `products` container. -/
structure Product where
  id : String
  name : String
  description : String
  category : String
  price : ℚ
  stock : Int
  image : String
  deriving DecidableEq, Repr

/-- A cart-line document in the `cart` container. -/
structure CartLine where
  id : String
  user_id : String
  product_id : String
  quantity : Int
  deriving DecidableEq, Repr

/-- One `{product_id, quantity}` snapshot inside an order document. -/
structure OrderItem where
  product_id : String
  quantity : Int
  deriving DecidableEq, Repr

/-- An order document in the `orders` container. -/
structure Order where
  id : String
  user_id : String
  items : List OrderItem
  status : String
  created_at : String
  deriving DecidableEq, Repr

/-- The document-store state seen by the handlers.  An `Option` container
being `none` models the corresponding `*_container` global being `None`
(`init_cosmos` skipped); `storeFail = some msg` models the store raising
an exception (message `msg`) on the first store call inside a handler. -/
structure DB where
  products : Option (List Product)
  cart : Option (List CartLine)
  orders : Option (List Order)
  storeFail : Option String
  deriving DecidableEq, Repr

/-- `DEMO_USERNAME` in `main.py`. -/
def DEMO_USERNAME : String := "barista"

/-- `DEMO_PASSWORD` in `main.py`. -/
def DEMO_PASSWORD : String := "coffee123"

/-- `ACCESS_TOKEN_EXPIRE_MINUTES` in `main.py`. -/
def ACCESS_TOKEN_EXPIRE_MINUTES : Nat := 60

/-- `DEFAULT_USER` in `main.py`: the fixed cart owner. -/
def DEFAULT_USER : String := "cafe_guest"

/-- The decoded payload of an issued JWT: the `sub` claim and the `exp`
claim (seconds since epoch).  Signing with the fixed secret is abstracted
away: a token verifies iff it was produced by `create_access_token` and
has not expired. -/
structure TokenPayload where
  sub : String
  exp : Nat
  deriving DecidableEq, Repr

/-- `create_access_token({"sub": sub})` called at time `now` (seconds):
sets `exp = now + ACCESS_TOKEN_EXPIRE_MINUTES` minutes. -/
def create_access_token (sub : String) (now : Nat) : TokenPayload :=
  { sub := sub, exp := now + ACCESS_TOKEN_EXPIRE_MINUTES * 60 }

/-- Result of `POST /auth/login`. -/
inductive LoginResult where
  | ok (token : TokenPayload)
  | invalidCredential
  deriving DecidableEq, Repr

/-- `auth_login` in `main.py`: checks the submitted pair against the fixed
demo account; 401 "Invalid credentials" on mismatch, otherwise a token
whose subject is the submitted username. -/
def auth_login (username password : String) (now : Nat) : LoginResult :=
  if username ≠ DEMO_USERNAME ∨ password ≠ DEMO_PASSWORD then
    .invalidCredential
  else
    .ok (create_access_token username now)

/-- Token verification step of `get_current_user` (`jwt.decode`): an
expired token raises `JWTError`, mapped to a 401 (`none`); otherwise the
`sub` claim is returned. -/
def verify_token (t : TokenPayload) (now : Nat) : Option String :=
  if t.exp < now then none else some t.sub

/-- `list_products` (`GET /api/v1/products`): optional category filter;
`[]` when the container is missing or the store errors. -/
def list_products (category : Option String) (db : DB) : List Product :=
  match db.products with
  | none => []
  | some ps =>
    match db.storeFail with
    | some _ => []
    | none =>
      match category with
      | some c => ps.filter (fun p => p.category = c)
      | none => ps

/-- `search_products` (`GET /api/v1/search`): `CONTAINS` on name or
category; `[]` when the container is missing or the store errors. -/
def search_products (q : String) (db : DB) : List Product :=
  match db.products with
  | none => []
  | some ps =>
    match db.storeFail with
    | some _ => []
    | none =>
      ps.filter (fun p => p.name.containsSubstr q || p.category.containsSubstr q)

/-- `get_categories` (`GET /api/v1/categories`): `SELECT DISTINCT
c.category`; `[]` when the container is missing or the store errors. -/
def get_categories (db : DB) : List String :=
  match db.products with
  | none => []
  | some ps =>
    match db.storeFail with
    | some _ => []
    | none => (ps.map (fun p => p.category)).eraseDups

/-- Outcome of `get_product` (`GET /api/v1/products/{id}`). -/
inductive GetProductResult where
  | ok (p : Product)
  | notFound
  | serviceUnavailable
  deriving DecidableEq, Repr

/-- `get_product` in `main.py`: 503 when the container handle is missing;
first match of `SELECT * FROM c WHERE c.id = @id` when one exists; 404
otherwise; a `CosmosHttpResponseError` raised by the query is caught and
also turned into a 404. -/
def get_product (product_id : String) (db : DB) : GetProductResult :=
  match db.products with
  | none => .serviceUnavailable
  | some ps =>
    match db.storeFail with
    | some _ => .notFound
    | none =>
      match ps.filter (fun p => p.id = product_id) with
      | [] => .notFound
      | p :: _ => .ok p

/-- One enriched line returned by `GET /api/v1/cart`. -/
structure EnrichedLine where
  id : String
  name : String
  price : ℚ
  quantity : Int
  image : String
  category : String
  deriving DecidableEq, Repr

/-- The JSON body returned by `get_cart`: either a list of enriched lines
or (on a caught store exception) a `{"error": msg}` object, still with
HTTP status 200. -/
inductive CartView where
  | lines (l : List EnrichedLine)
  | errObj (msg : String)
  deriving DecidableEq, Repr

/-- The enrichment step of `get_cart` for a single cart line: look the
product up; drop the line when no product matches, otherwise build the
enriched record from the first match. -/
def enrich (ps : List Product) (item : CartLine) : Option EnrichedLine :=
  match ps.filter (fun p => p.id = item.product_id) with
  | [] => none
  | product :: _ =>
    some { id := product.id, name := product.name, price := product.price,
           quantity := item.quantity, image := product.image,
           category := product.category }

/-- `get_cart` (`GET /api/v1/cart`): `[]` when either container handle is
missing; `{"error": msg}` when the store raises; otherwise the cart lines
of the fixed owner, each joined to its product, lines without a product
silently dropped.  `current_user` comes from the auth gate and is unused
by the handler body. -/
def get_cart (current_user : String) (db : DB) : CartView :=
  match db.cart, db.products with
  | none, _ => .lines []
  | _, none => .lines []
  | some cs, some ps =>
    match db.storeFail with
    | some msg => .errObj msg
    | none =>
      .lines ((cs.filter (fun c => c.user_id = DEFAULT_USER)).filterMap (enrich ps))

/-- The JSON body returned by the mutating cart handlers: a
`{"message": ...}` or a `{"error": ...}` object, always HTTP 200. -/
inductive ApiMsg where
  | message (m : String)
  | error (m : String)
  deriving DecidableEq, Repr

/-- `cart_container.upsert_item`: replace the document with the same id in
the same partition (`user_id`); insert when absent. -/
def upsert_item (cs : List CartLine) (x : CartLine) : List CartLine :=
  if cs.any (fun c => c.id = x.id ∧ c.user_id = x.user_id) then
    cs.map (fun c => if c.id = x.id ∧ c.user_id = x.user_id then x else c)
  else
    cs ++ [x]

/-- `cart_container.delete_item(docId, partition_key=pk)`: remove the
document with that id from that partition. -/
def delete_item (cs : List CartLine) (docId pk : String) : List CartLine :=
  cs.filter (fun c => ¬(c.id = docId ∧ c.user_id = pk))

/-- The `for item in items: cart_container.delete_item(item["id"],
partition_key=DEFAULT_USER)` loop shared by `remove_from_cart` and
`create_order`. -/
def delete_matching (cs : List CartLine) (items : List CartLine) : List CartLine :=
  items.foldl (fun acc item => delete_item acc item.id DEFAULT_USER) cs

/-- The cart mutation performed by `add_to_cart` on the `cart` container:
query the fixed owner's line for the product; overwrite its quantity via
`upsert_item` when found, else `create_item` a new line under the freshly
generated id `newId`. -/
def upsertCart (cs : List CartLine) (product_id : String) (quantity : Int)
    (newId : String) : List CartLine :=
  match cs.filter (fun c => c.user_id = DEFAULT_USER ∧ c.product_id = product_id) with
  | cart_item :: _ => upsert_item cs { cart_item with quantity := quantity }
  | [] =>
    cs ++ [{ id := newId, user_id := DEFAULT_USER, product_id := product_id,
             quantity := quantity }]

/-- `add_to_cart` (`POST /api/v1/cart/items`): query the fixed owner's
line for the product; overwrite its quantity when found, else create a
new line under the freshly generated id `newId`.  Returns the new store
state and the response body.  `current_user` is unused by the body. -/
def add_to_cart (current_user : String) (product_id : String) (quantity : Int)
    (newId : String) (db : DB) : DB × ApiMsg :=
  match db.cart with
  | none => (db, .error "Database not available")
  | some cs =>
    match db.storeFail with
    | some msg => (db, .error msg)
    | none =>
      ({ db with cart := some (upsertCart cs product_id quantity newId) },
       .message "Saved successfully")

/-- `remove_from_cart` (`DELETE /api/v1/cart/items/{product_id}`): query
the fixed owner's lines for the product and delete each by id; success
message even when none match.  `current_user` is unused by the body. -/
def remove_from_cart (current_user : String) (product_id : String)
    (db : DB) : DB × ApiMsg :=
  match db.cart with
  | none => (db, .error "Database not available")
  | some cs =>
    match db.storeFail with
    | some msg => (db, .error msg)
    | none =>
      let items := cs.filter (fun c => c.user_id = DEFAULT_USER ∧ c.product_id = product_id)
      ({ db with cart := some (delete_matching cs items) }, .message "Removed successfully")

/-- The JSON body returned by `POST /api/v1/orders`: the created order
document, or a `{"error": ...}` object, always HTTP 200. -/
inductive OrderResult where
  | ok (o : Order)
  | error (m : String)
  deriving DecidableEq, Repr

/-- `create_order` (`POST /api/v1/orders`): snapshot the fixed owner's
cart lines into a new order document (id `newId`, `status = "confirmed"`,
`created_at = now`), persist it, then delete every snapshotted cart line.
`current_user` is unused by the body. -/
def create_order (current_user : String) (newId now : String)
    (db : DB) : DB × OrderResult :=
  match db.orders, db.cart with
  | none, _ => (db, .error "Database not available")
  | _, none => (db, .error "Database not available")
  | some os, some cs =>
    match db.storeFail with
    | some msg => (db, .error msg)
    | none =>
      let cart_items := cs.filter (fun c => c.user_id = DEFAULT_USER)
      let order : Order :=
        { id := newId, user_id := DEFAULT_USER,
          items := cart_items.map (fun i => { product_id := i.product_id, quantity := i.quantity }),
          status := "confirmed", created_at := now }
      ({ db with orders := some (os ++ [order]), cart := some (delete_matching cs cart_items) },
       .ok order)

/-- `get_orders` (`GET /api/v1/orders`): the fixed owner's orders, `[]`
when the container is missing or the store errors.  `current_user` is
unused by the body. -/
def get_orders (current_user : String) (db : DB) : List Order :=
  match db.orders with
  | none => []
  | some os =>
    match db.storeFail with
    | some _ => []
    | none => os.filter (fun o => o.user_id = DEFAULT_USER)

/-! ### Store well-formedness

Cosmos DB guarantees that document ids are unique within a partition
(`user_id` is the cart partition key); `UniqueIds` states that for our
list model.  `AtMostOnePerProduct` is the cart invariant from the data
model: at most one CartLine per `(user_id, product_id)` pair. -/

/-- Document ids are unique within each `user_id` partition. -/
def UniqueIds (cs : List CartLine) : Prop :=
  cs.Pairwise (fun a b => ¬(a.id = b.id ∧ a.user_id = b.user_id))

/-- At most one CartLine per `(user_id, product_id)` pair. -/
def AtMostOnePerProduct (cs : List CartLine) : Prop :=
  cs.Pairwise (fun a b => ¬(a.user_id = b.user_id ∧ a.product_id = b.product_id))

/-! ### Concrete sample data (used to instantiate theorems with hypotheses) -/

/-- A sample product document, in the shape seeded by `seed_products`. -/
def p1W : Product :=
  { id := "p1", name := "Espresso Shot", description := "single shot",
    category := "Coffee", price := 11/4, stock := 80, image := "E" }

/-- A second sample product document. -/
def p2W : Product :=
  { id := "p2", name := "Cappuccino", description := "double espresso",
    category := "Coffee", price := 17/4, stock := 60, image := "C" }

/-- A sample cart line of the fixed owner for `p1W`. -/
def l1W : CartLine :=
  { id := "a", user_id := "cafe_guest", product_id := "p1", quantity := 2 }

/-- A sample cart line of the fixed owner for `p2W`. -/
def l2W : CartLine :=
  { id := "b", user_id := "cafe_guest", product_id := "p2", quantity := 1 }

/-- A sample cart line of the fixed owner for a product id with no
matching product document. -/
def l9W : CartLine :=
  { id := "z", user_id := "cafe_guest", product_id := "p9", quantity := 4 }

/-- A sample healthy store state. -/
def dbW : DB :=
  { products := some [p1W, p2W], cart := some [l1W, l2W], orders := some [],
    storeFail := none }

/-! ### Helper lemmas about the store operations -/

lemma mem_delete_item {cs : List CartLine} {docId pk : String} {c : CartLine} :
    c ∈ delete_item cs docId pk ↔ c ∈ cs ∧ ¬(c.id = docId ∧ c.user_id = pk) := by
  simp [delete_item]
  tauto

lemma mem_delete_matching {items cs : List CartLine} {c : CartLine} :
    c ∈ delete_matching cs items ↔
      c ∈ cs ∧ ∀ it ∈ items, ¬(c.id = it.id ∧ c.user_id = DEFAULT_USER) := by
  induction items generalizing cs with
  | nil => simp [delete_matching]
  | cons hd tl ih =>
    rw [show delete_matching cs (hd :: tl)
          = delete_matching (delete_item cs hd.id DEFAULT_USER) tl from rfl,
        ih, mem_delete_item]
    constructor
    · rintro ⟨⟨h1, h2⟩, h3⟩
      refine ⟨h1, ?_⟩
      intro it hit
      rcases List.mem_cons.mp hit with heq | hit'
      · rw [heq]; exact h2
      · exact h3 it hit'
    · rintro ⟨h1, h2⟩
      exact ⟨⟨h1, h2 hd (List.mem_cons_self hd tl)⟩,
             fun it hit => h2 it (List.mem_cons_of_mem hd hit)⟩

lemma no_owner_after_clear (cs : List CartLine) :
    ∀ c ∈ delete_matching cs (cs.filter (fun c => c.user_id = DEFAULT_USER)),
      c.user_id ≠ DEFAULT_USER := by
  intro c hc hD
  obtain ⟨hmem, hall⟩ := mem_delete_matching.mp hc
  have hcf : c ∈ cs.filter (fun c => c.user_id = DEFAULT_USER) :=
    List.mem_filter.mpr ⟨hmem, by simp [hD]⟩
  exact hall c hcf ⟨rfl, hD⟩

lemma filter_owner_clear (cs : List CartLine) :
    (delete_matching cs (cs.filter (fun c => c.user_id = DEFAULT_USER))).filter
      (fun c => c.user_id = DEFAULT_USER) = [] := by
  rw [List.filter_eq_nil_iff]
  intro c hc
  simpa using no_owner_after_clear cs c hc

lemma no_pid_after_remove (cs : List CartLine) (pid : String) :
    ∀ c ∈ delete_matching cs
        (cs.filter (fun c => c.user_id = DEFAULT_USER ∧ c.product_id = pid)),
      ¬(c.user_id = DEFAULT_USER ∧ c.product_id = pid) := by
  intro c hc hcp
  obtain ⟨hmem, hall⟩ := mem_delete_matching.mp hc
  have hcf : c ∈ cs.filter (fun c => c.user_id = DEFAULT_USER ∧ c.product_id = pid) :=
    List.mem_filter.mpr ⟨hmem, by simp [hcp.1, hcp.2]⟩
  exact hall c hcf ⟨rfl, hcp.1⟩

lemma pairwise_filter_length_le_one {α : Type} {R : α → α → Prop} {Q : α → Bool}
    {cs : List α} (hp : cs.Pairwise R)
    (h : ∀ a b, Q a = true → Q b = true → ¬ R a b) :
    (cs.filter Q).length ≤ 1 := by
  induction hp with
  | nil => simp
  | @cons a l h1 _ ih =>
    by_cases hQ : Q a
    · rw [List.filter_cons_of_pos hQ]
      have hnil : l.filter Q = [] := by
        rw [List.filter_eq_nil_iff]
        intro b hb hQb
        exact h a b hQ hQb (h1 b hb)
      simp [hnil]
    · rw [List.filter_cons_of_neg hQ]
      exact ih

lemma filter_eq_singleton_of_le_one {α : Type} {Q : α → Bool} {cs : List α} {x : α}
    (hlen : (cs.filter Q).length ≤ 1) (hmem : x ∈ cs) (hQ : Q x = true) :
    cs.filter Q = [x] := by
  have hx : x ∈ cs.filter Q := List.mem_filter.mpr ⟨hmem, hQ⟩
  rcases h : cs.filter Q with _ | ⟨y, _ | ⟨z, t⟩⟩
  · rw [h] at hx; cases hx
  · rw [h] at hx
    rw [List.mem_singleton] at hx
    rw [hx]
  · rw [h] at hlen
    simp at hlen

lemma eq_of_same_key {cs : List CartLine} (hIds : UniqueIds cs) {a l : CartLine}
    (ha : a ∈ cs) (hl : l ∈ cs) (hid : a.id = l.id) (huser : a.user_id = l.user_id) :
    a = l := by
  by_contra hne
  have hp : cs.Pairwise (fun a b => ¬(a.id = b.id ∧ a.user_id = b.user_id)) := hIds
  have hsymm : Symmetric (fun a b : CartLine => ¬(a.id = b.id ∧ a.user_id = b.user_id)) := by
    intro x y hxy hyx
    exact hxy ⟨hyx.1.symm, hyx.2.symm⟩
  exact hp.forall hsymm ha hl hne ⟨hid, huser⟩

lemma upsert_item_replace (cs : List CartLine) {l : CartLine} (hl : l ∈ cs) (x : CartLine)
    (hid : x.id = l.id) (huser : x.user_id = l.user_id) :
    upsert_item cs x
      = cs.map (fun c => if c.id = x.id ∧ c.user_id = x.user_id then x else c) := by
  unfold upsert_item
  rw [if_pos]
  rw [List.any_eq_true]
  exact ⟨l, hl, by simp [hid, huser]⟩

lemma upsert_item_spec (cs : List CartLine) (hIds : UniqueIds cs)
    (hProd : AtMostOnePerProduct cs) {l : CartLine} (x : CartLine) (hl : l ∈ cs)
    (hid : x.id = l.id) (huser : x.user_id = l.user_id)
    (hprod : x.product_id = l.product_id) :
    x ∈ upsert_item cs x
    ∧ UniqueIds (upsert_item cs x)
    ∧ AtMostOnePerProduct (upsert_item cs x)
    ∧ (∀ c ∈ upsert_item cs x, c.id ∈ cs.map CartLine.id) := by
  have hIdsP : cs.Pairwise (fun a b => ¬(a.id = b.id ∧ a.user_id = b.user_id)) := hIds
  have hProdP : cs.Pairwise
      (fun a b => ¬(a.user_id = b.user_id ∧ a.product_id = b.product_id)) := hProd
  rw [upsert_item_replace cs hl x hid huser]
  have hkey : ∀ c ∈ cs,
      ((fun c => if c.id = x.id ∧ c.user_id = x.user_id then x else c) c).id = c.id
      ∧ ((fun c => if c.id = x.id ∧ c.user_id = x.user_id then x else c) c).user_id = c.user_id
      ∧ ((fun c => if c.id = x.id ∧ c.user_id = x.user_id then x else c) c).product_id
          = c.product_id := by
    intro c hc
    by_cases hQ : c.id = x.id ∧ c.user_id = x.user_id
    · have hceq : c = l := eq_of_same_key hIds hc hl (hQ.1.trans hid) (hQ.2.trans huser)
      simp only [if_pos hQ]
      rw [hceq]
      exact ⟨hid, huser, hprod⟩
    · simp [if_neg hQ]
  refine ⟨?_, ?_, ?_, ?_⟩
  · have hfl : (fun c => if c.id = x.id ∧ c.user_id = x.user_id then x else c) l = x := by
      show (if l.id = x.id ∧ l.user_id = x.user_id then x else l) = x
      exact if_pos ⟨hid.symm, huser.symm⟩
    exact List.mem_map.mpr ⟨l, hl, hfl⟩
  · show (cs.map _).Pairwise _
    rw [List.pairwise_map]
    apply List.Pairwise.imp_of_mem _ hIdsP
    intro a b ha hb hR hcontra
    obtain ⟨ka1, ka2, _⟩ := hkey a ha
    obtain ⟨kb1, kb2, _⟩ := hkey b hb
    rw [ka1, ka2, kb1, kb2] at hcontra
    exact hR hcontra
  · show (cs.map _).Pairwise _
    rw [List.pairwise_map]
    apply List.Pairwise.imp_of_mem _ hProdP
    intro a b ha hb hR hcontra
    obtain ⟨_, ka2, ka3⟩ := hkey a ha
    obtain ⟨_, kb2, kb3⟩ := hkey b hb
    rw [ka2, ka3, kb2, kb3] at hcontra
    exact hR hcontra
  · intro c hc
    obtain ⟨c0, hc0, hfc⟩ := List.mem_map.mp hc
    obtain ⟨k1, _, _⟩ := hkey c0 hc0
    rw [← hfc, k1]
    exact List.mem_map_of_mem _ hc0

lemma upsertCart_spec (cs : List CartLine) (pid : String) (q : Int) (newId : String)
    (hIds : UniqueIds cs) (hProd : AtMostOnePerProduct cs)
    (hFresh : ∀ c ∈ cs, c.id ≠ newId) :
    (∃ l, (upsertCart cs pid q newId).filter
        (fun c => c.user_id = DEFAULT_USER ∧ c.product_id = pid) = [l]
      ∧ l.user_id = DEFAULT_USER ∧ l.product_id = pid ∧ l.quantity = q)
    ∧ UniqueIds (upsertCart cs pid q newId)
    ∧ AtMostOnePerProduct (upsertCart cs pid q newId)
    ∧ (∀ c ∈ upsertCart cs pid q newId, c.id ∈ cs.map CartLine.id ∨ c.id = newId) := by
  have hIdsP : cs.Pairwise (fun a b => ¬(a.id = b.id ∧ a.user_id = b.user_id)) := hIds
  have hProdP : cs.Pairwise
      (fun a b => ¬(a.user_id = b.user_id ∧ a.product_id = b.product_id)) := hProd
  rcases hm : cs.filter (fun c => c.user_id = DEFAULT_USER ∧ c.product_id = pid)
    with _ | ⟨l, rest⟩
  · -- no existing line: a fresh line is appended
    have hupc : upsertCart cs pid q newId
        = cs ++ [{ id := newId, user_id := DEFAULT_USER, product_id := pid,
                   quantity := q }] := by
      unfold upsertCart
      rw [hm]
    have hnone : ∀ a ∈ cs, ¬(a.user_id = DEFAULT_USER ∧ a.product_id = pid) := by
      intro a ha hap
      have hmem : a ∈ cs.filter (fun c => c.user_id = DEFAULT_USER ∧ c.product_id = pid) :=
        List.mem_filter.mpr ⟨ha, by simp [hap.1, hap.2]⟩
      rw [hm] at hmem
      cases hmem
    rw [hupc]
    refine ⟨⟨{ id := newId, user_id := DEFAULT_USER, product_id := pid, quantity := q },
            ?_, rfl, rfl, rfl⟩, ?_, ?_, ?_⟩
    · rw [List.filter_append, hm]
      simp
    · unfold UniqueIds
      rw [List.pairwise_append]
      refine ⟨hIdsP, List.pairwise_singleton _ _, ?_⟩
      intro a ha b hb hab
      rw [List.mem_singleton] at hb
      rw [hb] at hab
      exact hFresh a ha hab.1
    · unfold AtMostOnePerProduct
      rw [List.pairwise_append]
      refine ⟨hProdP, List.pairwise_singleton _ _, ?_⟩
      intro a ha b hb hab
      rw [List.mem_singleton] at hb
      rw [hb] at hab
      exact hnone a ha hab
    · intro c hc
      rcases List.mem_append.mp hc with hc' | hc'
      · exact Or.inl (List.mem_map_of_mem _ hc')
      · rw [List.mem_singleton] at hc'
        rw [hc']
        exact Or.inr rfl
  · -- an existing line is overwritten in place
    have hlf : l ∈ cs.filter (fun c => c.user_id = DEFAULT_USER ∧ c.product_id = pid) := by
      rw [hm]
      exact List.mem_cons_self l rest
    have hlcs : l ∈ cs := (List.mem_filter.mp hlf).1
    have hlP : l.user_id = DEFAULT_USER ∧ l.product_id = pid := by
      have h2 := (List.mem_filter.mp hlf).2
      simpa using h2
    have hupc : upsertCart cs pid q newId = upsert_item cs { l with quantity := q } := by
      unfold upsertCart
      rw [hm]
    obtain ⟨hmem, hIds', hProd', hsub⟩ :=
      upsert_item_spec cs hIds hProd { l with quantity := q } hlcs rfl rfl rfl
    have hProd'P : (upsert_item cs { l with quantity := q }).Pairwise
        (fun a b => ¬(a.user_id = b.user_id ∧ a.product_id = b.product_id)) := hProd'
    have hsingle : (upsert_item cs { l with quantity := q }).filter
        (fun c => c.user_id = DEFAULT_USER ∧ c.product_id = pid)
          = [{ l with quantity := q }] := by
      apply filter_eq_singleton_of_le_one
      · apply pairwise_filter_length_le_one hProd'P
        intro a b ha hb hR
        simp at ha hb
        exact hR ⟨ha.1.trans hb.1.symm, ha.2.trans hb.2.symm⟩
      · exact hmem
      · simp [hlP.1, hlP.2]
    rw [hupc]
    refine ⟨⟨{ l with quantity := q }, hsingle, hlP.1, hlP.2, rfl⟩, hIds', hProd', ?_⟩
    intro c hc
    exact Or.inl (hsub c hc)

/-! ### Claim theorems -/

/-- C9: every cart and order handler ignores the verified caller identity:
invoked by any two authenticated callers `a` and `b` on the same store
state and arguments, each of `get_cart`, `add_to_cart`,
`remove_from_cart`, `create_order` and `get_orders` performs the same
reads and writes (same resulting store state) and returns the same
result, because all of them key their queries to the constant
`DEFAULT_USER` ("cafe_guest"). -/
theorem caller_identity_irrelevant (a b : String) (db : DB)
    (pid newId now : String) (q : Int) :
    get_cart a db = get_cart b db
    ∧ add_to_cart a pid q newId db = add_to_cart b pid q newId db
    ∧ remove_from_cart a pid db = remove_from_cart b pid db
    ∧ create_order a newId now db = create_order b newId now db
    ∧ get_orders a db = get_orders b db :=
  ⟨rfl, rfl, rfl, rfl, rfl⟩

/-- C10: when the store raises during `get_cart`, the authenticated caller
receives a 200-status `{"error": msg}` object — not a list — while the
catalog read `list_products` degrades to an empty list under the same
store failure. -/
theorem getCart_store_error_returns_error_object (u msg : String) (db : DB)
    (cs : List CartLine) (ps : List Product)
    (hc : db.cart = some cs) (hp : db.products = some ps)
    (hsf : db.storeFail = some msg) :
    get_cart u db = .errObj msg
    ∧ (∀ l, get_cart u db ≠ .lines l)
    ∧ list_products none db = [] := by
  obtain ⟨dbp, dbc, dbo, dbsf⟩ := db
  dsimp only at hc hp hsf
  subst hc
  subst hp
  subst hsf
  refine ⟨rfl, ?_, rfl⟩
  intro l h
  exact CartView.noConfusion h

/-- C10 witness: instantiated at a concrete failing store. -/
theorem getCart_store_error_returns_error_object_witness :
    get_cart "barista" { dbW with storeFail := some "boom" } = .errObj "boom"
    ∧ (∀ l, get_cart "barista" { dbW with storeFail := some "boom" } ≠ .lines l)
    ∧ list_products none { dbW with storeFail := some "boom" } = [] :=
  getCart_store_error_returns_error_object "barista" "boom"
    { dbW with storeFail := some "boom" } [l1W, l2W] [p1W, p2W] rfl rfl rfl

/-- C4: when the catalog store is unreachable (the container handle was
never initialized — the app's "running without DB" degraded mode),
`get_product` signals 503 ServiceUnavailable, not NotFound and not an
empty result, while `list_products` (with and without a category filter),
`search_products` and `get_categories` all return an empty result set
instead of an error; and on a reachable, healthy store `get_product`
fails with 404 NotFound when no product has the given id.  (A
`CosmosHttpResponseError` raised by a reachable store during the query is
a distinct failure mode, caught and mapped to 404 by the code.) -/
theorem catalog_unreachable_asymmetry (db db2 : DB)
    (pid pid2 cat q : String) (ps2 : List Product)
    (hun : db.products = none)
    (hp2 : db2.products = some ps2) (hf2 : db2.storeFail = none)
    (hmiss : ∀ p ∈ ps2, p.id ≠ pid2) :
    get_product pid db = .serviceUnavailable
    ∧ list_products (some cat) db = []
    ∧ list_products none db = []
    ∧ search_products q db = []
    ∧ get_categories db = []
    ∧ get_product pid2 db2 = .notFound := by
  obtain ⟨dbp, dbc, dbo, dbsf⟩ := db
  obtain ⟨dbp2, dbc2, dbo2, dbsf2⟩ := db2
  dsimp only at hun hp2 hf2
  subst hun
  subst hp2
  subst hf2
  have hnil : ps2.filter (fun p => p.id = pid2) = [] := by
    rw [List.filter_eq_nil_iff]
    intro p hp hpid
    exact hmiss p hp (by simpa using hpid)
  refine ⟨rfl, rfl, rfl, rfl, rfl, ?_⟩
  show (match ps2.filter (fun p => p.id = pid2) with
        | [] => GetProductResult.notFound
        | p :: _ => GetProductResult.ok p) = GetProductResult.notFound
  rw [hnil]

/-- C4 witness: instantiated at a store without a DB handle and at a
healthy store missing the looked-up id. -/
theorem catalog_unreachable_asymmetry_witness :
    get_product "p1" { dbW with products := none } = .serviceUnavailable
    ∧ list_products (some "Coffee") { dbW with products := none } = []
    ∧ list_products none { dbW with products := none } = []
    ∧ search_products "latte" { dbW with products := none } = []
    ∧ get_categories { dbW with products := none } = []
    ∧ get_product "zz" dbW = .notFound :=
  catalog_unreachable_asymmetry { dbW with products := none } dbW
    "p1" "zz" "Coffee" "latte" [p1W, p2W] rfl rfl rfl (by decide)

/-- C8: logging in with the fixed demo pair issues a token whose subject
claim is the submitted username and whose expiry claim is 60 minutes
ahead of issuance; verifying that token strictly after its expiry time is
rejected (a 401-equivalent, `none`); any other username/password pair
fails with InvalidCredential. -/
theorem login_token_contract (now now2 : Nat) (u p : String)
    (hne : ¬(u = DEMO_USERNAME ∧ p = DEMO_PASSWORD))
    (hlate : now + ACCESS_TOKEN_EXPIRE_MINUTES * 60 < now2) :
    (∃ t, auth_login DEMO_USERNAME DEMO_PASSWORD now = .ok t
      ∧ t.sub = DEMO_USERNAME
      ∧ t.exp = now + 60 * 60
      ∧ verify_token t now2 = none)
    ∧ auth_login u p now = .invalidCredential := by
  constructor
  · refine ⟨create_access_token DEMO_USERNAME now, ?_, rfl, rfl, ?_⟩
    · rw [auth_login, if_neg]
      simp
    · rw [verify_token, if_pos]
      exact hlate
  · rw [auth_login, if_pos]
    rw [Decidable.not_and_iff_or_not] at hne
    exact hne

/-- C8 witness: a concrete login at time 0, verified at time 3601, and a
rejected wrong pair. -/
theorem login_token_contract_witness :
    (∃ t, auth_login DEMO_USERNAME DEMO_PASSWORD 0 = .ok t
      ∧ t.sub = DEMO_USERNAME
      ∧ t.exp = 0 + 60 * 60
      ∧ verify_token t 3601 = none)
    ∧ auth_login "mallory" "wrong" 0 = .invalidCredential :=
  login_token_contract 0 3601 "mallory" "wrong" (by decide) (by decide)

/-- C1: for every cart state in which the fixed owner's cart lines are
`[(p1,2),(p2,1)]` in store order, `create_order` persists a new Order
whose items are `[{product_id := p1, quantity := 2}, {product_id := p2,
quantity := 1}]` in the same order, with status "confirmed", and
afterwards the fixed owner has no remaining cart lines. -/
theorem placeOrder_snapshot_and_clear
    (u newId now p1 p2 : String) (db : DB) (cs : List CartLine) (os : List Order)
    (l1 l2 : CartLine)
    (hc : db.cart = some cs) (ho : db.orders = some os) (hf : db.storeFail = none)
    (hlines : cs.filter (fun c => c.user_id = DEFAULT_USER) = [l1, l2])
    (h1p : l1.product_id = p1) (h1q : l1.quantity = 2)
    (h2p : l2.product_id = p2) (h2q : l2.quantity = 1) :
    ∃ o db', create_order u newId now db = (db', .ok o)
      ∧ o.items = [{ product_id := p1, quantity := 2 },
                   { product_id := p2, quantity := 1 }]
      ∧ o.status = "confirmed"
      ∧ db'.orders = some (os ++ [o])
      ∧ ∃ cs', db'.cart = some cs'
          ∧ cs'.filter (fun c => c.user_id = DEFAULT_USER) = [] := by
  obtain ⟨dbp, dbc, dbo, dbsf⟩ := db
  dsimp only at hc ho hf
  subst hc
  subst ho
  subst hf
  refine ⟨_, _, rfl, ?_, rfl, rfl, _, rfl, filter_owner_clear cs⟩
  show (cs.filter (fun c => c.user_id = DEFAULT_USER)).map
      (fun i => ({ product_id := i.product_id, quantity := i.quantity } : OrderItem)) = _
  rw [hlines]
  simp [h1p, h1q, h2p, h2q]

/-- C1 witness: instantiated at the sample cart `[("p1",2),("p2",1)]`. -/
theorem placeOrder_snapshot_and_clear_witness :
    ∃ o db', create_order "barista" "oid" "t0" dbW = (db', .ok o)
      ∧ o.items = [{ product_id := "p1", quantity := 2 },
                   { product_id := "p2", quantity := 1 }]
      ∧ o.status = "confirmed"
      ∧ db'.orders = some ([] ++ [o])
      ∧ ∃ cs', db'.cart = some cs'
          ∧ cs'.filter (fun c => c.user_id = DEFAULT_USER) = [] :=
  placeOrder_snapshot_and_clear "barista" "oid" "t0" "p1" "p2" dbW
    [l1W, l2W] [] l1W l2W rfl rfl rfl (by decide) rfl rfl rfl rfl

/-- C6: for every cart state in which the fixed owner has no cart lines,
`create_order` still creates and persists an Order with an empty item
list and status "confirmed" — it does not reject or skip order
creation. -/
theorem placeOrder_empty_cart_still_creates
    (u newId now : String) (db : DB) (cs : List CartLine) (os : List Order)
    (hc : db.cart = some cs) (ho : db.orders = some os) (hf : db.storeFail = none)
    (hempty : cs.filter (fun c => c.user_id = DEFAULT_USER) = []) :
    ∃ o db', create_order u newId now db = (db', .ok o)
      ∧ o.items = []
      ∧ o.status = "confirmed"
      ∧ db'.orders = some (os ++ [o]) := by
  obtain ⟨dbp, dbc, dbo, dbsf⟩ := db
  dsimp only at hc ho hf
  subst hc
  subst ho
  subst hf
  refine ⟨_, _, rfl, ?_, rfl, rfl⟩
  show (cs.filter (fun c => c.user_id = DEFAULT_USER)).map
      (fun i => ({ product_id := i.product_id, quantity := i.quantity } : OrderItem)) = _
  rw [hempty]
  rfl

/-- C6 witness: instantiated at an empty cart. -/
theorem placeOrder_empty_cart_still_creates_witness :
    ∃ o db', create_order "barista" "oid" "t0" { dbW with cart := some [] }
        = (db', .ok o)
      ∧ o.items = []
      ∧ o.status = "confirmed"
      ∧ db'.orders = some ([] ++ [o]) :=
  placeOrder_empty_cart_still_creates "barista" "oid" "t0"
    { dbW with cart := some [] } [] [] rfl rfl rfl rfl

/-- C7: `remove_from_cart` always returns the success message; when no
cart line of the fixed owner matches the product id it is a no-op that
leaves the store unchanged; and in general it deletes every cart line
matching `(owner, product_id)` — none remain afterwards. -/
theorem removeCartItem_noop_and_deletes_all (u pid : String) (db : DB)
    (cs : List CartLine)
    (hc : db.cart = some cs) (hf : db.storeFail = none) :
    (remove_from_cart u pid db).2 = .message "Removed successfully"
    ∧ ((∀ c ∈ cs, ¬(c.user_id = DEFAULT_USER ∧ c.product_id = pid)) →
        remove_from_cart u pid db = (db, .message "Removed successfully"))
    ∧ (∃ cs', (remove_from_cart u pid db).1.cart = some cs'
        ∧ ∀ c ∈ cs', ¬(c.user_id = DEFAULT_USER ∧ c.product_id = pid)) := by
  obtain ⟨dbp, dbc, dbo, dbsf⟩ := db
  dsimp only at hc hf
  subst hc
  subst hf
  refine ⟨rfl, ?_, _, rfl, no_pid_after_remove cs pid⟩
  intro hnone
  have hnil : cs.filter (fun c => c.user_id = DEFAULT_USER ∧ c.product_id = pid) = [] := by
    rw [List.filter_eq_nil_iff]
    intro c hcm hP
    exact hnone c hcm (by simpa using hP)
  have hdel : delete_matching cs
      (cs.filter (fun c => c.user_id = DEFAULT_USER ∧ c.product_id = pid)) = cs := by
    rw [hnil]
    rfl
  show (({ products := dbp,
           cart := some (delete_matching cs
             (cs.filter (fun c => c.user_id = DEFAULT_USER ∧ c.product_id = pid))),
           orders := dbo,
           storeFail := none } : DB), ApiMsg.message "Removed successfully") = _
  rw [hdel]

/-- C7 witness: instantiated at the sample cart with a product id that
has no matching line. -/
theorem removeCartItem_noop_and_deletes_all_witness :
    (remove_from_cart "barista" "p9" dbW).2 = .message "Removed successfully"
    ∧ ((∀ c ∈ [l1W, l2W], ¬(c.user_id = DEFAULT_USER ∧ c.product_id = "p9")) →
        remove_from_cart "barista" "p9" dbW = (dbW, .message "Removed successfully"))
    ∧ (∃ cs', (remove_from_cart "barista" "p9" dbW).1.cart = some cs'
        ∧ ∀ c ∈ cs', ¬(c.user_id = DEFAULT_USER ∧ c.product_id = "p9")) :=
  removeCartItem_noop_and_deletes_all "barista" "p9" dbW [l1W, l2W] rfl rfl

/-- C5: `get_cart` on a healthy store returns a list (no error) in which
every line corresponds to a cart line of the fixed owner whose product
exists: the line carries that product's id, name, price, image and
category together with the cart line's quantity; cart lines whose product
is missing are omitted without an error. -/
theorem getCart_joins_only_existing_products (u : String) (db : DB)
    (cs : List CartLine) (ps : List Product)
    (hc : db.cart = some cs) (hp : db.products = some ps)
    (hf : db.storeFail = none) :
    ∃ l, get_cart u db = .lines l
      ∧ ∀ e ∈ l, ∃ c ∈ cs, c.user_id = DEFAULT_USER
          ∧ ∃ p ∈ ps, p.id = c.product_id
          ∧ e = { id := p.id, name := p.name, price := p.price,
                  quantity := c.quantity, image := p.image,
                  category := p.category } := by
  obtain ⟨dbp, dbc, dbo, dbsf⟩ := db
  dsimp only at hc hp hf
  subst hc
  subst hp
  subst hf
  refine ⟨_, rfl, ?_⟩
  intro e he
  rw [List.mem_filterMap] at he
  obtain ⟨c, hcf, henr⟩ := he
  rw [List.mem_filter] at hcf
  obtain ⟨hcs, hD⟩ := hcf
  refine ⟨c, hcs, by simpa using hD, ?_⟩
  unfold enrich at henr
  rcases hm : ps.filter (fun p => p.id = c.product_id) with _ | ⟨p, t⟩
  · rw [hm] at henr
    exact absurd henr (by simp)
  · rw [hm] at henr
    have hpf : p ∈ ps.filter (fun p => p.id = c.product_id) := by
      rw [hm]
      exact List.mem_cons_self p t
    rw [List.mem_filter] at hpf
    refine ⟨p, hpf.1, by simpa using hpf.2, ?_⟩
    have := Option.some.inj henr
    exact this.symm

/-- C5 witness: instantiated at the sample store, where a line for a
missing product "p9" is dropped from the result. -/
theorem getCart_joins_only_existing_products_witness :
    ∃ l, get_cart "barista" { dbW with cart := some [l1W, l2W, l9W] } = .lines l
      ∧ ∀ e ∈ l, ∃ c ∈ [l1W, l2W, l9W], c.user_id = DEFAULT_USER
          ∧ ∃ p ∈ [p1W, p2W], p.id = c.product_id
          ∧ e = { id := p.id, name := p.name, price := p.price,
                  quantity := c.quantity, image := p.image,
                  category := p.category } :=
  getCart_joins_only_existing_products "barista"
    { dbW with cart := some [l1W, l2W, l9W] }
    [l1W, l2W, l9W] [p1W, p2W] rfl rfl rfl

lemma fresh_after_upsert (cs : List CartLine) (pid : String) (q : Int)
    (idA idB : String) (hIds : UniqueIds cs) (hProd : AtMostOnePerProduct cs)
    (hA : ∀ c ∈ cs, c.id ≠ idA) (hB : ∀ c ∈ cs, c.id ≠ idB) (hBA : idB ≠ idA) :
    ∀ c ∈ upsertCart cs pid q idA, c.id ≠ idB := by
  intro c hcm heq
  obtain ⟨_, _, _, hsub⟩ := upsertCart_spec cs pid q idA hIds hProd hA
  rcases hsub c hcm with hin | hnew
  · rw [heq] at hin
    obtain ⟨c0, hc0, hc0id⟩ := List.mem_map.mp hin
    exact hB c0 hc0 hc0id
  · rw [heq] at hnew
    exact hBA hnew

/-- C2: upserting quantity 3 then quantity 5 for the same product id
leaves the stored quantity at 5 — the second call overwrites the stored
quantity rather than adding to it. -/
theorem upsert_overwrites_quantity (u u2 pid idA idB : String) (db : DB)
    (cs : List CartLine)
    (hc : db.cart = some cs) (hf : db.storeFail = none)
    (hIds : UniqueIds cs) (hProd : AtMostOnePerProduct cs)
    (hA : ∀ c ∈ cs, c.id ≠ idA) (hB : ∀ c ∈ cs, c.id ≠ idB) (hBA : idB ≠ idA) :
    ∃ cs2, ((add_to_cart u2 pid 5 idB (add_to_cart u pid 3 idA db).1).1).cart
        = some cs2
      ∧ (cs2.filter (fun c => c.user_id = DEFAULT_USER ∧ c.product_id = pid)).map
          (fun c => c.quantity) = [5] := by
  obtain ⟨dbp, dbc, dbo, dbsf⟩ := db
  dsimp only at hc hf
  subst hc
  subst hf
  obtain ⟨_, hIds1, hProd1, _⟩ := upsertCart_spec cs pid 3 idA hIds hProd hA
  have hB1 : ∀ c ∈ upsertCart cs pid 3 idA, c.id ≠ idB :=
    fresh_after_upsert cs pid 3 idA idB hIds hProd hA hB hBA
  obtain ⟨⟨l, hfil, _, _, hq⟩, _, _, _⟩ :=
    upsertCart_spec (upsertCart cs pid 3 idA) pid 5 idB hIds1 hProd1 hB1
  refine ⟨upsertCart (upsertCart cs pid 3 idA) pid 5 idB, rfl, ?_⟩
  rw [hfil]
  simp [hq]

/-- C2 witness: two upserts of product "p1" on the sample cart. -/
theorem upsert_overwrites_quantity_witness :
    ∃ cs2, ((add_to_cart "u2" "p1" 5 "n2"
        (add_to_cart "u1" "p1" 3 "n1" dbW).1).1).cart = some cs2
      ∧ (cs2.filter (fun c => c.user_id = DEFAULT_USER ∧ c.product_id = "p1")).map
          (fun c => c.quantity) = [5] :=
  upsert_overwrites_quantity "u1" "u2" "p1" "n1" "n2" dbW [l1W, l2W]
    rfl rfl (by unfold UniqueIds; decide) (by unfold AtMostOnePerProduct; decide)
    (by decide) (by decide) (by decide)

/-- C3: from any cart state satisfying the at-most-one-line-per-
`(user_id, product_id)` invariant, one `add_to_cart` call leaves exactly
one cart line for `(owner, pid)`, with the submitted quantity, and the
invariant still holds; calling twice with the same quantity `q` also
leaves exactly one cart line for `(owner, pid)` with quantity `q`. -/
theorem upsert_preserves_uniqueness (u u2 pid idA idB : String) (q : Int)
    (db : DB) (cs : List CartLine)
    (hc : db.cart = some cs) (hf : db.storeFail = none)
    (hIds : UniqueIds cs) (hProd : AtMostOnePerProduct cs)
    (hA : ∀ c ∈ cs, c.id ≠ idA) (hB : ∀ c ∈ cs, c.id ≠ idB) (hBA : idB ≠ idA) :
    (∃ cs1, ((add_to_cart u pid q idA db).1).cart = some cs1
      ∧ AtMostOnePerProduct cs1
      ∧ ∃ l, cs1.filter (fun c => c.user_id = DEFAULT_USER ∧ c.product_id = pid)
            = [l]
          ∧ l.quantity = q)
    ∧ (∃ cs2, ((add_to_cart u2 pid q idB (add_to_cart u pid q idA db).1).1).cart
          = some cs2
      ∧ ∃ l, cs2.filter (fun c => c.user_id = DEFAULT_USER ∧ c.product_id = pid)
            = [l]
          ∧ l.quantity = q) := by
  obtain ⟨dbp, dbc, dbo, dbsf⟩ := db
  dsimp only at hc hf
  subst hc
  subst hf
  obtain ⟨⟨l1, hfil1, _, _, hq1⟩, hIds1, hProd1, _⟩ :=
    upsertCart_spec cs pid q idA hIds hProd hA
  have hB1 : ∀ c ∈ upsertCart cs pid q idA, c.id ≠ idB :=
    fresh_after_upsert cs pid q idA idB hIds hProd hA hB hBA
  obtain ⟨⟨l2, hfil2, _, _, hq2⟩, _, _, _⟩ :=
    upsertCart_spec (upsertCart cs pid q idA) pid q idB hIds1 hProd1 hB1
  exact ⟨⟨upsertCart cs pid q idA, rfl, hProd1, l1, hfil1, hq1⟩,
         ⟨upsertCart (upsertCart cs pid q idA) pid q idB, rfl, l2, hfil2, hq2⟩⟩

/-- C3 witness: two identical upserts of product "p1" (quantity 2) on the
sample cart. -/
theorem upsert_preserves_uniqueness_witness :
    (∃ cs1, ((add_to_cart "u1" "p1" 2 "n1" dbW).1).cart = some cs1
      ∧ AtMostOnePerProduct cs1
      ∧ ∃ l, cs1.filter (fun c => c.user_id = DEFAULT_USER ∧ c.product_id = "p1")
            = [l]
          ∧ l.quantity = 2)
    ∧ (∃ cs2, ((add_to_cart "u2" "p1" 2 "n2"
          (add_to_cart "u1" "p1" 2 "n1" dbW).1).1).cart = some cs2
      ∧ ∃ l, cs2.filter (fun c => c.user_id = DEFAULT_USER ∧ c.product_id = "p1")
            = [l]
          ∧ l.quantity = 2) :=
  upsert_preserves_uniqueness "u1" "u2" "p1" "n1" "n2" 2 dbW [l1W, l2W]
    rfl rfl (by unfold UniqueIds; decide) (by unfold AtMostOnePerProduct; decide)
    (by decide) (by decide) (by decide)

end BrewHaven
